import Mathlib

/-!
Shallow embedding of the lodge-zen-manage session-authentication and
booking-aggregation core, translated from:

* `src/utils/authUtils.ts` — `parseJwt`, `isTokenValid`, the claim
  accessors (`getUserRoleFromToken`, `getUserIdFromToken`, `getUsername`);
* `src/pages/AdminDashboard.tsx` — the `fetchData` aggregation pipeline
  (upcoming checkouts, daily summary);
* the receptionist dashboard — the `fetchBookings` task-count pipeline
  (`computeTaskCounts` in the specification's vocabulary).

Modelling conventions:

* JavaScript strings are Lean `String` / `List Char`.
* JavaScript number values arising from `JSON.parse` are modelled exactly
  as decimal pairs `m * 10 ^ p` with `m p : Int` (every JSON numeric
  literal denotes such a value); IEEE-754 rounding of enormous literals is
  not modelled, no claim depends on it.
* Millisecond timestamps (`Date.now()`, `getTime()`) are `Int`.
* `new Date(s).getTime()` on a date string and `setHours(0,0,0,0)` depend
  on the runtime's parser and local time zone; they are passed in as
  oracle functions `dateOf : String → Int` and `dayFloor : Int → Int`, so
  every theorem quantifies over all possible date semantics.
* A JavaScript expression that can only produce `NaN`/`Infinity`
  (division by a zero room count) is modelled as `Option`: `none` stands
  for the non-finite result.
-/

namespace LodgeZen

/-! ## JavaScript string primitives -/

/-- JavaScript `s.split(sep)` for a single-character separator: splitting
the empty string yields `[""]`, a separator at either end yields empty
segments, exactly as in ECMAScript. -/
def jsSplitChar (sep : Char) : List Char → List (List Char)
  | [] => [[]]
  | c :: rest =>
    match jsSplitChar sep rest with
    | [] => [[c]]
    | g :: gs => if c = sep then [] :: g :: gs else (c :: g) :: gs

/-- The segments of `token.split('.')`, as strings. -/
def jsSplitDot (s : String) : List String :=
  (jsSplitChar '.' s.data).map String.mk

/-! ## Forgiving base64 decoding (`atob`) -/

/-- Value of a base64 alphabet character (`A`–`Z`, `a`–`z`, `0`–`9`,
`+`, `/`); `none` for any other character. -/
def b64Val (c : Char) : Option Nat :=
  let n := c.toNat
  if 65 ≤ n ∧ n ≤ 90 then some (n - 65)
  else if 97 ≤ n ∧ n ≤ 122 then some (n - 71)
  else if 48 ≤ n ∧ n ≤ 57 then some (n + 4)
  else if n = 43 then some 62
  else if n = 47 then some 63
  else none

/-- ASCII whitespace stripped by forgiving-base64 decode. -/
def isB64Ws (c : Char) : Bool :=
  c.toNat = 9 || c.toNat = 10 || c.toNat = 12 || c.toNat = 13 || c.toNat = 32

/-- Remove up to two trailing `=` padding characters. -/
def dropPad (l : List Char) : List Char :=
  match l.reverse with
  | '=' :: '=' :: r => r.reverse
  | '=' :: r => r.reverse
  | _ => l

/-- Reassemble 6-bit groups into bytes; a leftover group of one character
is invalid, leftovers of two or three characters contribute one or two
bytes with the spare low bits discarded (forgiving-base64). -/
def b64Bytes : List Nat → Option (List Nat)
  | [] => some []
  | a :: b :: c :: d :: rest =>
    match b64Bytes rest with
    | none => none
    | some bs => some ((a * 4 + b / 16) :: ((b % 16) * 16 + c / 4) :: ((c % 4) * 64 + d) :: bs)
  | [a, b, c] => some [a * 4 + b / 16, (b % 16) * 16 + c / 4]
  | [a, b] => some [a * 4 + b / 16]
  | [_] => none

/-- JavaScript `atob`, per the WHATWG forgiving-base64 decode: strip ASCII
whitespace, strip up to two trailing `=` when the length is a multiple of
four, fail when the remaining length is `1 mod 4` or any character is
outside the alphabet; returns the decoded bytes (in the source these are
the char codes of the returned binary string). -/
def atobBytes (s : List Char) : Option (List Nat) :=
  let t := s.filter (fun c => !(isB64Ws c))
  let t := if t.length % 4 = 0 then dropPad t else t
  if t.length % 4 = 1 then none
  else
    match t.mapM b64Val with
    | none => none
    | some vals => b64Bytes vals

/-! ## Strict UTF-8 decoding

The source re-encodes every byte produced by `atob` as a `%xx` escape and
feeds the result to `decodeURIComponent`; the net effect of that two-step
dance is a strict UTF-8 decode of the byte sequence, which rejects
continuation errors, overlong forms, surrogate code points and values
above `0x10FFFF` by throwing (caught by the enclosing `try`). -/

def utf8Decode : List Nat → Option (List Char)
  | [] => some []
  | b :: rest =>
    if b < 0x80 then
      match utf8Decode rest with
      | none => none
      | some cs => some (Char.ofNat b :: cs)
    else if 0xC2 ≤ b ∧ b ≤ 0xDF then
      match rest with
      | b2 :: rest2 =>
        if 0x80 ≤ b2 ∧ b2 ≤ 0xBF then
          match utf8Decode rest2 with
          | none => none
          | some cs => some (Char.ofNat ((b - 0xC0) * 64 + (b2 - 0x80)) :: cs)
        else none
      | _ => none
    else if 0xE0 ≤ b ∧ b ≤ 0xEF then
      match rest with
      | b2 :: b3 :: rest3 =>
        let lo2 := if b = 0xE0 then 0xA0 else 0x80
        let hi2 := if b = 0xED then 0x9F else 0xBF
        if (lo2 ≤ b2 ∧ b2 ≤ hi2) ∧ (0x80 ≤ b3 ∧ b3 ≤ 0xBF) then
          match utf8Decode rest3 with
          | none => none
          | some cs =>
            some (Char.ofNat ((b - 0xE0) * 4096 + (b2 - 0x80) * 64 + (b3 - 0x80)) :: cs)
        else none
      | _ => none
    else if 0xF0 ≤ b ∧ b ≤ 0xF4 then
      match rest with
      | b2 :: b3 :: b4 :: rest4 =>
        let lo2 := if b = 0xF0 then 0x90 else 0x80
        let hi2 := if b = 0xF4 then 0x8F else 0xBF
        if (lo2 ≤ b2 ∧ b2 ≤ hi2) ∧ (0x80 ≤ b3 ∧ b3 ≤ 0xBF) ∧ (0x80 ≤ b4 ∧ b4 ≤ 0xBF) then
          match utf8Decode rest4 with
          | none => none
          | some cs =>
            some (Char.ofNat
              ((b - 0xF0) * 262144 + (b2 - 0x80) * 4096 + (b3 - 0x80) * 64 + (b4 - 0x80)) :: cs)
        else none
      | _ => none
    else none

/-! ## JSON values and `JSON.parse` -/

/-- A JSON value as produced by `JSON.parse`.  A numeric literal is kept
exactly as the decimal `jnum m p`, denoting `m * 10 ^ p`; an integer
literal parses to `p = 0`.  Object members are kept in source order
(duplicate keys are resolved at lookup time, last occurrence winning, as
`JSON.parse` does). -/
inductive Json where
  | jnull : Json
  | jbool (b : Bool) : Json
  | jnum (m : Int) (p : Int) : Json
  | jstr (s : String) : Json
  | jarr (elems : List Json) : Json
  | jobj (members : List (String × Json)) : Json
deriving Repr

/-- JSON whitespace (space, tab, line feed, carriage return). -/
def isJsonWs (c : Char) : Bool :=
  c.toNat = 32 || c.toNat = 9 || c.toNat = 10 || c.toNat = 13

def skipWs (s : List Char) : List Char :=
  match s with
  | [] => []
  | c :: rest => if isJsonWs c then skipWs rest else s

def isDigit (c : Char) : Bool := 48 ≤ c.toNat && c.toNat ≤ 57

/-- Longest leading run of decimal digits, with the rest of the input. -/
def takeDigits : List Char → List Char × List Char
  | [] => ([], [])
  | c :: rest =>
    if isDigit c then
      let (ds, r) := takeDigits rest
      (c :: ds, r)
    else ([], c :: rest)

def digitsVal (ds : List Char) : Nat :=
  ds.foldl (fun acc c => acc * 10 + (c.toNat - 48)) 0

/-- Parse the integer part of a JSON number: `0`, or a nonzero digit
followed by digits (JSON rejects leading zeros). -/
def parseJsonInt (s : List Char) : Option (Nat × List Char) :=
  match s with
  | [] => none
  | c :: rest =>
    if c = '0' then some (0, rest)
    else if isDigit c then
      let (ds, r) := takeDigits rest
      some (digitsVal (c :: ds), r)
    else none

/-- Parse a JSON number after an optional leading minus sign has been
consumed, returning its exact decimal value `(mantissa, power of ten)`. -/
def parseJsonNumTail (neg : Bool) (s : List Char) : Option ((Int × Int) × List Char) :=
  match parseJsonInt s with
  | none => none
  | some (ip, r1) =>
    let (fds, r2) :=
      match r1 with
      | '.' :: rf =>
        match takeDigits rf with
        | ([], _) => ([], '.' :: rf)
        | (ds, r) => (ds, r)
      | _ => ([], r1)
    if r2.length ≠ r1.length ∧ fds = [] then none
    else
      let mantAbs : Nat := ip * 10 ^ fds.length + digitsVal fds
      let mant : Int := if neg then -(mantAbs : Int) else (mantAbs : Int)
      match r2 with
      | e :: re =>
        if e = 'e' ∨ e = 'E' then
          let (esign, re2) :=
            match re with
            | '+' :: r => ((1 : Int), r)
            | '-' :: r => ((-1 : Int), r)
            | _ => ((1 : Int), re)
          match takeDigits re2 with
          | ([], _) => none
          | (eds, r3) => some ((mant, esign * (digitsVal eds : Int) - fds.length), r3)
        else some ((mant, -(fds.length : Int)), r2)
      | [] => some ((mant, -(fds.length : Int)), [])

/-- Parse a JSON string body after the opening quote, handling the JSON
escapes.  A `\u` escape yields its code point; a high surrogate followed
by a `\u`-escaped low surrogate combines into the supplementary code
point.  An unpaired surrogate escape is rejected (ECMAScript would keep
the lone surrogate code unit, which a Lean `Char` cannot represent; no
behaviour relied on by the program reaches this corner). -/
def hexVal (c : Char) : Option Nat :=
  let n := c.toNat
  if 48 ≤ n ∧ n ≤ 57 then some (n - 48)
  else if 65 ≤ n ∧ n ≤ 70 then some (n - 55)
  else if 97 ≤ n ∧ n ≤ 102 then some (n - 87)
  else none

def hex4Val (a b c d : Char) : Option Nat :=
  match hexVal a, hexVal b, hexVal c, hexVal d with
  | some va, some vb, some vc, some vd => some (va * 4096 + vb * 256 + vc * 16 + vd)
  | _, _, _, _ => none

def parseJsonStringBody : List Char → Option (List Char × List Char)
  | [] => none
  | c :: rest =>
    if c = '"' then some ([], rest)
    else if c = '\\' then
      match rest with
      | 'u' :: h1 :: h2 :: h3 :: h4 :: rest3 =>
        match hex4Val h1 h2 h3 h4 with
        | none => none
        | some cp =>
          if cp < 0xD800 ∨ 0xDFFF < cp then
            match parseJsonStringBody rest3 with
            | none => none
            | some (cs, r) => some (Char.ofNat cp :: cs, r)
          else if cp ≤ 0xDBFF then
            match rest3 with
            | '\\' :: 'u' :: g1 :: g2 :: g3 :: g4 :: rest5 =>
              match hex4Val g1 g2 g3 g4 with
              | none => none
              | some lo =>
                if 0xDC00 ≤ lo ∧ lo ≤ 0xDFFF then
                  match parseJsonStringBody rest5 with
                  | none => none
                  | some (cs, r) =>
                    some (Char.ofNat (0x10000 + (cp - 0xD800) * 1024 + (lo - 0xDC00)) :: cs, r)
                else none
            | _ => none
          else none
      | e :: rest2 =>
        let simple : Option Char :=
          if e = '"' then some '"'
          else if e = '\\' then some '\\'
          else if e = '/' then some '/'
          else if e = 'b' then some (Char.ofNat 8)
          else if e = 'f' then some (Char.ofNat 12)
          else if e = 'n' then some (Char.ofNat 10)
          else if e = 'r' then some (Char.ofNat 13)
          else if e = 't' then some (Char.ofNat 9)
          else none
        match simple with
        | some ch =>
          match parseJsonStringBody rest2 with
          | none => none
          | some (cs, r) => some (ch :: cs, r)
        | none => none
      | [] => none
    else if c.toNat < 0x20 then none
    else
      match parseJsonStringBody rest with
      | none => none
      | some (cs, r) => some (c :: cs, r)

mutual

/-- Recursive-descent `JSON.parse` value parser; `fuel` bounds the nesting
depth (each level of nesting consumes at least one input character, so
`input length + 1` is always sufficient). -/
def parseJsonValue (fuel : Nat) (s : List Char) : Option (Json × List Char) :=
  match fuel with
  | 0 => none
  | fuel + 1 =>
    match skipWs s with
    | [] => none
    | c :: rest =>
      if c = '{' then
        match skipWs rest with
        | '}' :: r => some (Json.jobj [], r)
        | r => parseJsonMembers fuel r
      else if c = '[' then
        match skipWs rest with
        | ']' :: r => some (Json.jarr [], r)
        | r => parseJsonElements fuel r
      else if c = '"' then
        match parseJsonStringBody rest with
        | none => none
        | some (cs, r) => some (Json.jstr (String.mk cs), r)
      else if c = 't' then
        match rest with
        | 'r' :: 'u' :: 'e' :: r => some (Json.jbool true, r)
        | _ => none
      else if c = 'f' then
        match rest with
        | 'a' :: 'l' :: 's' :: 'e' :: r => some (Json.jbool false, r)
        | _ => none
      else if c = 'n' then
        match rest with
        | 'u' :: 'l' :: 'l' :: r => some (Json.jnull, r)
        | _ => none
      else if c = '-' then
        match parseJsonNumTail true rest with
        | none => none
        | some ((m, p), r) => some (Json.jnum m p, r)
      else
        match parseJsonNumTail false (c :: rest) with
        | none => none
        | some ((m, p), r) => some (Json.jnum m p, r)

/-- Members of a JSON object after the opening brace (nonempty case). -/
def parseJsonMembers (fuel : Nat) (s : List Char) : Option (Json × List Char) :=
  match fuel with
  | 0 => none
  | fuel + 1 =>
    match skipWs s with
    | '"' :: rest =>
      match parseJsonStringBody rest with
      | none => none
      | some (key, r1) =>
        match skipWs r1 with
        | ':' :: r2 =>
          match parseJsonValue fuel r2 with
          | none => none
          | some (v, r3) =>
            match skipWs r3 with
            | ',' :: r4 =>
              match parseJsonMembers fuel r4 with
              | some (Json.jobj ms, r5) => some (Json.jobj ((String.mk key, v) :: ms), r5)
              | _ => none
            | '}' :: r4 => some (Json.jobj [(String.mk key, v)], r4)
            | _ => none
        | _ => none
    | _ => none

/-- Elements of a JSON array after the opening bracket (nonempty case). -/
def parseJsonElements (fuel : Nat) (s : List Char) : Option (Json × List Char) :=
  match fuel with
  | 0 => none
  | fuel + 1 =>
    match parseJsonValue fuel s with
    | none => none
    | some (v, r1) =>
      match skipWs r1 with
      | ',' :: r2 =>
        match parseJsonElements fuel r2 with
        | some (Json.jarr vs, r3) => some (Json.jarr (v :: vs), r3)
        | _ => none
      | ']' :: r2 => some (Json.jarr [v], r2)
      | _ => none

end

/-- `JSON.parse` on a character sequence: one value, then only trailing
whitespace. -/
def jsonParseChars (s : List Char) : Option Json :=
  match parseJsonValue (s.length + 1) s with
  | none => none
  | some (v, rest) =>
    match skipWs rest with
    | [] => some v
    | _ => none

/-! ## Credential decoder (`src/utils/authUtils.ts`) -/

/-- Member lookup on a decoded value (`decoded?.field`): `undefined`
(here `none`) on a non-object or a missing key; with duplicate keys
`JSON.parse` keeps the last occurrence, hence the reversed lookup. -/
def jLookup (v : Json) (key : String) : Option Json :=
  match v with
  | Json.jobj ms => ms.reverse.lookup key
  | _ => none

/-- The base64url alphabet substitutions of the source: every dash is
replaced by a plus and every underscore by a slash (the two global
`replace` calls in `parseJwt`). -/
def b64UrlChar (c : Char) : Char :=
  if c = '-' then '+' else if c = '_' then '/' else c

/-- The processing `parseJwt` applies to the payload segment: undo the
base64url substitutions, `atob`, percent-escape every byte and
`decodeURIComponent` (together a strict UTF-8 decode), then `JSON.parse`;
any failure along the way is caught and surfaced as `none`. -/
def decodePayloadSegment (seg : List Char) : Option Json :=
  let base64 := seg.map b64UrlChar
  match atobBytes base64 with
  | none => none
  | some bytes =>
    match utf8Decode bytes with
    | none => none
    | some chars => jsonParseChars chars

/-- `parseJwt` from `authUtils.ts`: `token.split('.')[1]` — the segment
count is never checked; when the token has fewer than two dot-separated
segments the indexing yields `undefined` and the subsequent `.replace`
throws into the enclosing `catch`, producing `null` (`none`). -/
def parseJwt (token : String) : Option Json :=
  match (jsSplitChar '.' token.data).get? 1 with
  | none => none
  | some seg => decodePayloadSegment seg

/-- Exact comparison `v * 1000 > nowMs` for the decimal `v = m * 10 ^ p`,
carried out in integers. -/
def decimalScaledGt (m p nowMs : Int) : Bool :=
  if 0 ≤ p then decide (1000 * m * 10 ^ p.toNat > nowMs)
  else decide (1000 * m > nowMs * 10 ^ (-p).toNat)

/-- JavaScript `ToNumber` on a decoded JSON value, as an exact decimal;
`none` models `NaN`.  Strings and container values only occur here in
corners no claim exercises: a numeric-looking string would coerce in
JavaScript, which this model conservatively maps to `NaN` (documented
deviation, unreachable from the verified claims), as are arrays and
objects (whose `ToPrimitive` detour is likewise not modelled). -/
def jsToNumber : Json → Option (Int × Int)
  | Json.jnull => some (0, 0)
  | Json.jbool b => some (if b then 1 else 0, 0)
  | Json.jnum m p => some (m, p)
  | Json.jstr _ => none
  | Json.jarr _ => none
  | Json.jobj _ => none

/-- The expiry test of `isTokenValid`: `decoded.exp > Date.now() / 1000`.
A missing or non-numeric `exp` compares as `NaN > t`, which is false. -/
def expCheck (decoded : Json) (nowMs : Int) : Bool :=
  match jLookup decoded "exp" with
  | none => false
  | some v =>
    match jsToNumber v with
    | none => false
    | some (m, p) => decimalScaledGt m p nowMs

/-- `isTokenValid` from `authUtils.ts`: decode, reject `null`, then test
`decoded.exp > Date.now() / 1000`.  The wall clock is passed in as the
integer millisecond reading `nowMs` of `Date.now()`; the source divides
it by 1000 (an exact rational with fractional part), so the comparison is
carried out exactly as `exp * 1000 > nowMs`. -/
def isTokenValid (token : String) (nowMs : Int) : Bool :=
  match parseJwt token with
  | none => false
  | some decoded => expCheck decoded nowMs

/-- JavaScript truthiness of a decoded JSON value (`NaN` cannot arise
from `JSON.parse`, and `jnum m p` is zero exactly when `m = 0`). -/
def jsTruthy : Json → Bool
  | Json.jnull => false
  | Json.jbool b => b
  | Json.jnum m _ => decide (m ≠ 0)
  | Json.jstr s => decide (s ≠ "")
  | Json.jarr _ => true
  | Json.jobj _ => true

/-- The `|| null` projection the accessors apply to a claim field: a
missing field (`undefined`) and every falsy value collapse to `null`
(`none`). -/
def jsOrNull (v : Option Json) : Option Json :=
  match v with
  | none => none
  | some j => if jsTruthy j then some j else none

/-- Common shape of the claim accessors: read the stored token (the
`localStorage` slot is passed in as `store`), return `null` when it is
absent or falsy (the empty string is falsy), otherwise decode and project
the field through `|| null`.  When `parseJwt` returns `null`, optional
chaining gives `undefined`, hence `null` as well. -/
def accessorField (field : String) : Option String → Option Json
  | none => none
  | some token =>
    if token = "" then none
    else
      match parseJwt token with
      | none => none
      | some decoded => jsOrNull (jLookup decoded field)

/-- `getUserRoleFromToken` from `authUtils.ts`. -/
def getUserRoleFromToken (store : Option String) : Option Json :=
  accessorField "role" store

/-- `getUserIdFromToken` from `authUtils.ts`. -/
def getUserIdFromToken (store : Option String) : Option Json :=
  accessorField "id" store

/-- `getUsername` from `authUtils.ts`. -/
def getUsername (store : Option String) : Option Json :=
  accessorField "username" store

/-! ## Booking aggregator (`AdminDashboard.tsx` / receptionist dashboard)

The dashboards' `Room` and `Booking` interfaces, with JSON numbers as
`Int` and the date strings kept as strings (interpreted only through the
`dateOf` / `dayFloor` oracles described in the header). -/

structure Room where
  id : Int
  roomNumber : String
  status : String
  floor : Int
  specialFeatures : String
  lastCleanedAt : String
deriving Repr, DecidableEq

structure Booking where
  id : Int
  room : Room
  guestName : String
  email : String
  phoneNumber : String
  bookingType : String
  date : String
  startTime : String
  durationHours : Int
  actualCheckIn : Option String
  actualCheckOut : Option String
  bookingCode : String
  status : String
  totalCharges : ℚ
  scheduledCheckOut : String
  scheduledCheckIn : String
deriving Repr, DecidableEq

/-- The intermediate record of the upcoming-checkout pipeline, before the
final projection drops `remainingMs`. -/
structure UpcomingCheckoutFull where
  bookingCode : String
  guestName : String
  roomNumber : String
  remainingTime : String
  remainingMs : Int
deriving Repr, DecidableEq

instance : IsTrans UpcomingCheckoutFull (fun a b => a.remainingMs ≤ b.remainingMs) :=
  ⟨fun _ _ _ => le_trans⟩

instance : IsTotal UpcomingCheckoutFull (fun a b => a.remainingMs ≤ b.remainingMs) :=
  ⟨fun a b => le_total a.remainingMs b.remainingMs⟩

/-- The published `UpcomingCheckout` record. -/
structure UpcomingCheckout where
  bookingCode : String
  guestName : String
  roomNumber : String
  remainingTime : String
deriving Repr, DecidableEq

/-- The body of the `.map` in the upcoming-checkout pipeline:
`timeDiff = checkoutTime − now`, hours by `Math.floor` of the real
quotient (`Int.fdiv`), minutes by `Math.floor` applied to the truncating
JavaScript remainder (`Int.tmod`, sign of the dividend), and the
`hr`/`min` display string. -/
def mkCheckoutEntry (dateOf : String → Int) (nowMs : Int) (b : Booking) :
    UpcomingCheckoutFull :=
  let timeDiff := dateOf b.scheduledCheckOut - nowMs
  let hoursRemaining := Int.fdiv timeDiff 3600000
  let minutesRemaining := Int.fdiv (Int.tmod timeDiff 3600000) 60000
  { bookingCode := b.bookingCode
    guestName := b.guestName
    roomNumber := b.room.roomNumber
    remainingTime := toString hoursRemaining ++ "hr " ++ toString minutesRemaining ++ "min"
    remainingMs := timeDiff }

/-- The upcoming-checkout pipeline shared verbatim by both dashboards:
filter to status `"CHECKED_IN"` (exact string equality), map to entries,
keep `0 < remainingMs ≤ windowMs`, sort ascending by `remainingMs`,
truncate to `limit`.  ECMAScript `Array.prototype.sort` with the
comparator `a.remainingMs - b.remainingMs` is required to be stable, and
a stable sort by a total preorder has a unique result, so any stable
sorting algorithm is a faithful model; a structurally recursive insertion
sort is used so that concrete instances compute inside the kernel.
The callers instantiate `windowMs = 2 * 60 * 60 * 1000` and `limit = 3`. -/
def computeUpcomingCheckoutsFull (dateOf : String → Int) (bookings : List Booking)
    (nowMs windowMs : Int) (limit : Nat) : List UpcomingCheckoutFull :=
  ((List.insertionSort (fun a b => a.remainingMs ≤ b.remainingMs)
      (((bookings.filter (fun b => b.status == "CHECKED_IN")).map
        (mkCheckoutEntry dateOf nowMs)).filter
        (fun e => decide (0 < e.remainingMs) && decide (e.remainingMs ≤ windowMs)))).take limit)

/-- The published list, after the final `.map` strips `remainingMs`. -/
def computeUpcomingCheckouts (dateOf : String → Int) (bookings : List Booking)
    (nowMs windowMs : Int) (limit : Nat) : List UpcomingCheckout :=
  (computeUpcomingCheckoutsFull dateOf bookings nowMs windowMs limit).map
    (fun e => { bookingCode := e.bookingCode, guestName := e.guestName,
                roomNumber := e.roomNumber, remainingTime := e.remainingTime })

/-- `Math.round` of the exact ratio `num / den` for a positive
denominator: `⌊num/den + 1/2⌋ = ⌊(2*num + den) / (2*den)⌋`, carried out
with integer floor division. -/
def jsRoundRatio (num den : Int) : Int :=
  Int.fdiv (2 * num + den) (2 * den)

structure DailySummary where
  checkIns : Nat
  checkOuts : Nat
  revenue : ℚ
  occupancyRate : Option Int
  pendingPayments : Nat
deriving Repr, DecidableEq

/-- The daily-summary block of `fetchData` in `AdminDashboard.tsx`.
`today` is `new Date()` with the time of day zeroed, i.e.
`dayFloor nowMs`; each booking's scheduled instants are zeroed the same
way before the equality comparison of the two `getTime()` values.  The
check-in and check-out counts have no status condition in the source.
`occupancyRate = Math.round((occupiedRooms / totalRooms) * 100)` divides
by the room count with no guard: with zero rooms the quotient is `NaN`
(or `Infinity` when `occupiedRooms > 0`), which `Math.round` propagates;
that non-finite outcome is modelled as `none`. -/
def computeDailySummary (dateOf : String → Int) (dayFloor : Int → Int)
    (bookings : List Booking) (rooms : List Room) (nowMs : Int) : DailySummary :=
  let today := dayFloor nowMs
  let todayCheckIns :=
    (bookings.filter (fun b => dayFloor (dateOf b.scheduledCheckIn) == today)).length
  let todayCheckOuts :=
    (bookings.filter (fun b => dayFloor (dateOf b.scheduledCheckOut) == today)).length
  let todayRevenue :=
    ((bookings.filter (fun b => dayFloor (dateOf b.scheduledCheckIn) == today)).map
      (fun b => b.totalCharges)).foldl (· + ·) 0
  let totalRooms := rooms.length
  let occupiedRooms := (bookings.filter (fun b => b.status == "CHECKED_IN")).length
  let occupancyRate : Option Int :=
    if totalRooms = 0 then none
    else some (jsRoundRatio ((occupiedRooms : Int) * 100) (totalRooms : Int))
  let pendingPayments := (bookings.filter (fun b => b.status == "RESERVED")).length
  { checkIns := todayCheckIns
    checkOuts := todayCheckOuts
    revenue := todayRevenue
    occupancyRate := occupancyRate
    pendingPayments := pendingPayments }

/-- JavaScript `haystack.includes(needle)`: some contiguous run of
`haystack` equals `needle`. -/
def jsIncludes (haystack needle : String) : Bool :=
  go haystack.data needle.data
where
  go : List Char → List Char → Bool
    | l, pat => pat.isPrefixOf l || match l with
      | [] => false
      | _ :: rest => go rest pat

structure TaskCount where
  checkIns : Nat
  checkOuts : Nat
  reservations : Nat
  roomInspections : Nat
deriving Repr, DecidableEq

/-- The task-count block of `fetchBookings` in the receptionist
dashboard.  `today` is the `YYYY-MM-DD` prefix of
`new Date().toISOString()`, passed in as a string; the check-in and
check-out tests use substring containment on the scheduled instants
combined with an exact status comparison.  `roomInspections` is the
literal `4`, annotated in the source as mock data because the API does
not provide it. -/
def computeTaskCounts (bookings : List Booking) (today : String) : TaskCount :=
  { checkIns :=
      (bookings.filter (fun b =>
        jsIncludes b.scheduledCheckIn today && b.status == "RESERVED")).length
    checkOuts :=
      (bookings.filter (fun b =>
        jsIncludes b.scheduledCheckOut today && b.status == "CHECKED_IN")).length
    reservations := (bookings.filter (fun b => b.status == "RESERVED")).length
    roomInspections := 4 }

/-! ## Concrete fixtures used by counterexamples and witnesses -/

def sampleRoom : Room :=
  { id := 1, roomNumber := "101", status := "AVAILABLE", floor := 1,
    specialFeatures := "", lastCleanedAt := "2025-01-01" }

def baseBooking : Booking :=
  { id := 1, room := sampleRoom, guestName := "G", email := "g@x", phoneNumber := "0",
    bookingType := "daily", date := "2025-01-02", startTime := "10:00", durationHours := 24,
    actualCheckIn := none, actualCheckOut := none, bookingCode := "B1",
    status := "CHECKED_IN", totalCharges := 50,
    scheduledCheckOut := "co1", scheduledCheckIn := "ci1" }

/-- Date oracle used by concrete instances: a handful of named instants. -/
def sampleDateOf (s : String) : Int :=
  if s = "co1" then 5000
  else if s = "co2" then 120000
  else if s = "co3" then 45000
  else 0

/-! ## Claims -/

/-- C1: with a room collection of size zero, the occupancy-rate division
has no guard, so the summary's occupancy rate is the non-finite value
(`NaN`, or `Infinity` when some booking is checked in) — modelled `none`
— for every booking collection and every date semantics; the claimed
defined value `0` is never produced. -/
theorem c1_zero_rooms_occupancy_nonfinite (dateOf : String → Int) (dayFloor : Int → Int)
    (bookings : List Booking) (nowMs : Int) :
    (computeDailySummary dateOf dayFloor bookings [] nowMs).occupancyRate = none := rfl

/-- C2, counterexample: a booking scheduled to check in and out today but
with status `"CHECKED_OUT"` (neither reserved nor checked-in) is still
counted by both the check-in and the check-out tallies, because the
source applies no status condition there; the claim requires it to be
counted by neither. -/
theorem c2_counterexample_status_ignored :
    (computeDailySummary (fun _ => 0) (fun t => t)
        [{ baseBooking with status := "CHECKED_OUT" }] [] 0).checkIns = 1 ∧
    (computeDailySummary (fun _ => 0) (fun t => t)
        [{ baseBooking with status := "CHECKED_OUT" }] [] 0).checkOuts = 1 := by
  exact ⟨rfl, rfl⟩

/-- C2, amended: `computeDailySummary` counts as `checkIns` exactly the
bookings whose zeroed scheduled check-in day equals today and as
`checkOuts` exactly those whose zeroed scheduled check-out day equals
today, with no status condition at all: the counts equal the respective
day-equality tallies, and rewriting every booking's status to an
arbitrary value leaves both counts unchanged. -/
theorem c2_day_equality_counts_ignore_status (dateOf : String → Int) (dayFloor : Int → Int)
    (bookings : List Booking) (rooms : List Room) (nowMs : Int) (s : String) :
    ((computeDailySummary dateOf dayFloor bookings rooms nowMs).checkIns =
        bookings.countP (fun b => dayFloor (dateOf b.scheduledCheckIn) == dayFloor nowMs) ∧
      (computeDailySummary dateOf dayFloor bookings rooms nowMs).checkOuts =
        bookings.countP (fun b => dayFloor (dateOf b.scheduledCheckOut) == dayFloor nowMs)) ∧
    ((computeDailySummary dateOf dayFloor
          (bookings.map (fun b => { b with status := s })) rooms nowMs).checkIns =
        (computeDailySummary dateOf dayFloor bookings rooms nowMs).checkIns ∧
      (computeDailySummary dateOf dayFloor
          (bookings.map (fun b => { b with status := s })) rooms nowMs).checkOuts =
        (computeDailySummary dateOf dayFloor bookings rooms nowMs).checkOuts) := by
  refine ⟨⟨?_, ?_⟩, ?_, ?_⟩ <;>
    simp [computeDailySummary, List.countP_eq_length_filter, List.filter_map,
      Function.comp_def]

/-- C3, counterexample (the claim's negation): there is an
input-independent constant — namely `4` — that the room-inspection count
always equals; `computeTaskCounts` takes no injected inspection value at
all. -/
theorem c3_counterexample_constant_four :
    ∃ c : Nat, ∀ (bookings : List Booking) (today : String),
      (computeTaskCounts bookings today).roomInspections = c :=
  ⟨4, fun _ _ => rfl⟩

/-- C3, amended: the room-inspection count is fabricated: it is the
hard-coded constant `4` (annotated as mock data in the source), identical
across all inputs, not a value injected by the caller. -/
theorem c3_room_inspections_constant (bookings bookings2 : List Booking)
    (today today2 : String) :
    (computeTaskCounts bookings today).roomInspections = 4 ∧
    (computeTaskCounts bookings today).roomInspections =
      (computeTaskCounts bookings2 today2).roomInspections := ⟨rfl, rfl⟩

/-- C5, counterexample: `"a.eyJleHAiOjF9"` has two dot-separated
segments, not three, yet `parseJwt` decodes it (the segment count is
never checked; only index 1 is read). -/
theorem c5_counterexample_two_segments_decode :
    (jsSplitDot "a.eyJleHAiOjF9").length = 2 ∧
    parseJwt "a.eyJleHAiOjF9" = some (Json.jobj [("exp", Json.jnum 1 0)]) :=
  ⟨rfl, rfl⟩

/-- C5, amended: `parseJwt` returns `null` whenever the token has fewer
than two dot-separated segments (the indexing of segment 1 then throws
into the `catch`); beyond that the segment count is irrelevant — the
result is a function of the second segment alone, so two- or
four-segment tokens with a decodable second segment succeed. -/
theorem c5_segment_count (token : String) :
    ((jsSplitDot token).length < 2 → parseJwt token = none) ∧
    (∀ token2 : String,
      (jsSplitChar '.' token.data).get? 1 = (jsSplitChar '.' token2.data).get? 1 →
      parseJwt token = parseJwt token2) := by
  constructor
  · intro h
    have hlen : (jsSplitChar '.' token.data).length ≤ 1 := by
      have := h
      simpa [jsSplitDot, List.length_map] using Nat.lt_succ_iff.mp h
    unfold parseJwt
    rw [List.get?_eq_none.mpr hlen]
  · intro token2 h
    unfold parseJwt
    rw [h]

/-- C5, witness: a one-segment token decodes to `null`, and the decode
result depends only on the second segment (a two-segment and a
three-segment token sharing it decode identically). -/
theorem c5_witness :
    parseJwt "abc" = none ∧ parseJwt "x.QQ.y" = parseJwt "z.QQ" :=
  ⟨(c5_segment_count "abc").1 (by decide),
   (c5_segment_count "x.QQ.y").2 "z.QQ" (by decide)⟩

/-- C9: for a token of three dot-separated segments whose middle segment
decodes (base64url, UTF-8, `JSON.parse`) to a value carrying a numeric
`exp` member, `parseJwt` succeeds and returns that value unchanged, so
the expiry read off the decoded claims is exactly the encoded number. -/
theorem c9_payload_roundtrip (token : String) (seg : List Char) (v : Json) (m p : Int) :
    (jsSplitDot token).length = 3 →
    (jsSplitChar '.' token.data).get? 1 = some seg →
    decodePayloadSegment seg = some v →
    jLookup v "exp" = some (Json.jnum m p) →
    parseJwt token = some v ∧
      (match parseJwt token with
       | some d => jLookup d "exp"
       | none => none) = some (Json.jnum m p) := by
  intro _ hseg hdec hexp
  have hp : parseJwt token = some v := by
    unfold parseJwt
    rw [hseg]
    exact hdec
  exact ⟨hp, by rw [hp]; exact hexp⟩

/-- C9, witness: the specification's end-to-end token decodes to claims
with `id` `"1"`, role `"ADMIN"` and expiry `9999999999`, and validates
against a present-day clock. -/
theorem c9_witness :
    parseJwt "a.eyJpZCI6IjEiLCJyb2xlIjoiQURNSU4iLCJleHAiOjk5OTk5OTk5OTl9.sig" =
      some (Json.jobj [("id", Json.jstr "1"), ("role", Json.jstr "ADMIN"),
        ("exp", Json.jnum 9999999999 0)]) ∧
    jLookup (Json.jobj [("id", Json.jstr "1"), ("role", Json.jstr "ADMIN"),
        ("exp", Json.jnum 9999999999 0)]) "role" = some (Json.jstr "ADMIN") ∧
    isTokenValid "a.eyJpZCI6IjEiLCJyb2xlIjoiQURNSU4iLCJleHAiOjk5OTk5OTk5OTl9.sig"
      1760000000000 = true :=
  ⟨(c9_payload_roundtrip
      "a.eyJpZCI6IjEiLCJyb2xlIjoiQURNSU4iLCJleHAiOjk5OTk5OTk5OTl9.sig"
      "eyJpZCI6IjEiLCJyb2xlIjoiQURNSU4iLCJleHAiOjk5OTk5OTk5OTl9".data
      (Json.jobj [("id", Json.jstr "1"), ("role", Json.jstr "ADMIN"),
        ("exp", Json.jnum 9999999999 0)]) 9999999999 0
      rfl rfl rfl rfl).1,
   rfl, rfl⟩

/-- Whatever `jsOrNull` lets through is truthy. -/
theorem jsOrNull_truthy (v : Option Json) (j : Json) (h : jsOrNull v = some j) :
    jsTruthy j = true := by
  cases v with
  | none => simp [jsOrNull] at h
  | some w =>
    by_cases hw : jsTruthy w
    · simp [jsOrNull, hw] at h
      subst h
      exact hw
    · simp [jsOrNull, hw] at h

/-- An accessor never yields the empty string. -/
theorem accessorField_ne_empty (field : String) (store : Option String) :
    accessorField field store ≠ some (Json.jstr "") := by
  intro h
  cases store with
  | none => simp [accessorField] at h
  | some token =>
    by_cases ht : token = ""
    · simp [accessorField, ht] at h
    · cases hp : parseJwt token with
      | none => simp [accessorField, ht, hp] at h
      | some d =>
        simp only [accessorField, ht, hp, if_false, ite_false] at h
        have := jsOrNull_truthy _ _ h
        simp [jsTruthy] at this

/-- C10: no claim accessor can return the empty string — every falsy
claim value present in a successfully decoded token is collapsed to
`null` by the `|| null` projection, for the role and username accessors
alike. -/
theorem c10_falsy_claims_null :
    (∀ store : Option String,
        getUserRoleFromToken store ≠ some (Json.jstr "") ∧
        getUserIdFromToken store ≠ some (Json.jstr "") ∧
        getUsername store ≠ some (Json.jstr "")) ∧
    (∀ (t : String) (v j : Json), parseJwt t = some v →
        jLookup v "role" = some j → jsTruthy j = false →
        getUserRoleFromToken (some t) = none) ∧
    (∀ (t : String) (v j : Json), parseJwt t = some v →
        jLookup v "username" = some j → jsTruthy j = false →
        getUsername (some t) = none) := by
  refine ⟨fun store => ⟨accessorField_ne_empty _ _, accessorField_ne_empty _ _,
    accessorField_ne_empty _ _⟩, ?_, ?_⟩ <;>
  · intro t v j hparse hlookup hfalsy
    by_cases ht : t = "" <;>
      simp [getUserRoleFromToken, getUsername, accessorField, ht, hparse, hlookup,
        jsOrNull, hfalsy]

/-- C10, witness: a token whose payload is an object with empty-string
role and username yields `null` from both accessors, never the empty
string. -/
theorem c10_witness :
    getUserRoleFromToken (some "a.eyJyb2xlIjoiIiwidXNlcm5hbWUiOiIifQ.c") = none ∧
    getUsername (some "a.eyJyb2xlIjoiIiwidXNlcm5hbWUiOiIifQ.c") = none ∧
    getUserRoleFromToken (some "a.eyJyb2xlIjoiIiwidXNlcm5hbWUiOiIifQ.c") ≠
      some (Json.jstr "") := by
  refine ⟨?_, ?_, ?_⟩
  · exact c10_falsy_claims_null.2.1 "a.eyJyb2xlIjoiIiwidXNlcm5hbWUiOiIifQ.c"
      (Json.jobj [("role", Json.jstr ""), ("username", Json.jstr "")]) (Json.jstr "")
      rfl rfl rfl
  · exact c10_falsy_claims_null.2.2 "a.eyJyb2xlIjoiIiwidXNlcm5hbWUiOiIifQ.c"
      (Json.jobj [("role", Json.jstr ""), ("username", Json.jstr "")]) (Json.jstr "")
      rfl rfl rfl
  · exact (c10_falsy_claims_null.1 _).1

/-- C4, counterexample: a booking whose status is `"checked-in"` (lower
case) is invisible to every aggregation — dropped from the upcoming
checkouts, from the occupancy numerator (rate 0 instead of 100 with one
room), and from the task check-out count — whereas the identical booking
written `"CHECKED_IN"` is counted everywhere; the status is compared
case-sensitively, never normalized. -/
theorem c4_counterexample_case_sensitive :
    computeUpcomingCheckoutsFull sampleDateOf
        [{ baseBooking with status := "checked-in" }] 0 7200000 3 = [] ∧
    (computeUpcomingCheckoutsFull sampleDateOf [baseBooking] 0 7200000 3).length = 1 ∧
    (computeDailySummary sampleDateOf (fun t => t)
        [{ baseBooking with status := "checked-in" }] [sampleRoom] 0).occupancyRate =
      some 0 ∧
    (computeDailySummary sampleDateOf (fun t => t)
        [baseBooking] [sampleRoom] 0).occupancyRate = some 100 ∧
    (computeTaskCounts
        [{ { baseBooking with status := "checked-in" } with
            scheduledCheckOut := "2025-01-03T10:00" }] "2025-01-03").checkOuts = 0 ∧
    (computeTaskCounts [{ baseBooking with scheduledCheckOut := "2025-01-03T10:00" }]
        "2025-01-03").checkOuts = 1 := by
  refine ⟨by decide, by decide, rfl, rfl, by decide, by decide⟩

/-- C4, amended: the aggregations compare the lifecycle status by exact,
case-sensitive string equality with `"CHECKED_IN"`; a booking whose
status differs in any way — including only in case — contributes nothing
to the upcoming-checkout list, the occupancy rate, or the task check-out
count. -/
theorem c4_non_checked_in_not_counted (dateOf : String → Int) (dayFloor : Int → Int)
    (rooms : List Room) (nowMs windowMs : Int) (limit : Nat) (today : String)
    (b : Booking) (bookings : List Booking) (h : b.status ≠ "CHECKED_IN") :
    computeUpcomingCheckoutsFull dateOf (b :: bookings) nowMs windowMs limit =
      computeUpcomingCheckoutsFull dateOf bookings nowMs windowMs limit ∧
    (computeDailySummary dateOf dayFloor (b :: bookings) rooms nowMs).occupancyRate =
      (computeDailySummary dateOf dayFloor bookings rooms nowMs).occupancyRate ∧
    (computeTaskCounts (b :: bookings) today).checkOuts =
      (computeTaskCounts bookings today).checkOuts := by
  have hb : (b.status == "CHECKED_IN") = false := by
    simpa using h
  refine ⟨?_, ?_, ?_⟩ <;>
    simp [computeUpcomingCheckoutsFull, computeDailySummary, computeTaskCounts,
      List.filter_cons, hb]

/-- C4, witness for the amended claim, at the lower-case booking. -/
theorem c4_witness :
    computeUpcomingCheckoutsFull sampleDateOf
        [{ baseBooking with status := "checked-in" }] 0 7200000 3 =
      computeUpcomingCheckoutsFull sampleDateOf [] 0 7200000 3 ∧
    (computeDailySummary sampleDateOf (fun t => t)
        [{ baseBooking with status := "checked-in" }] [sampleRoom] 0).occupancyRate =
      (computeDailySummary sampleDateOf (fun t => t) [] [sampleRoom] 0).occupancyRate ∧
    (computeTaskCounts [{ baseBooking with status := "checked-in" }] "2025").checkOuts =
      (computeTaskCounts [] "2025").checkOuts :=
  c4_non_checked_in_not_counted sampleDateOf (fun t => t) [sampleRoom] 0 7200000 3 "2025"
    { baseBooking with status := "checked-in" } [] (by decide)

/-- `decimalScaledGt` is the exact comparison `nowMs / 1000 < m * 10 ^ p`
over the rationals. -/
theorem decimalScaledGt_iff (m p nowMs : Int) :
    decimalScaledGt m p nowMs = true ↔
      (nowMs : ℚ) / 1000 < (m : ℚ) * (10 : ℚ) ^ p := by
  unfold decimalScaledGt
  by_cases hp : 0 ≤ p
  · rw [if_pos hp, decide_eq_true_eq]
    rw [div_lt_iff₀ (by norm_num : (0 : ℚ) < 1000)]
    rw [show ((10 : ℚ) ^ p = ((10 : ℚ) ^ p.toNat)) by
      rw [← zpow_natCast]
      congr 1
      exact (Int.toNat_of_nonneg hp).symm]
    rw [show ((m : ℚ) * (10 : ℚ) ^ p.toNat * 1000 = ((1000 * m * 10 ^ p.toNat : ℤ) : ℚ)) by
      push_cast
      ring]
    exact Int.cast_lt.symm
  · rw [if_neg hp, decide_eq_true_eq]
    have hk : (10 : ℚ) ^ p = ((10 : ℚ) ^ (-p).toNat)⁻¹ := by
      rw [← zpow_natCast (10 : ℚ) (-p).toNat, Int.toNat_of_nonneg (by omega : (0 : ℤ) ≤ -p),
        ← zpow_neg, neg_neg]
    rw [hk, ← div_eq_mul_inv]
    rw [div_lt_div_iff₀ (by norm_num : (0 : ℚ) < 1000)
      (by positivity : (0 : ℚ) < (10 : ℚ) ^ (-p).toNat)]
    rw [show ((nowMs : ℚ) * (10 : ℚ) ^ (-p).toNat = ((nowMs * 10 ^ (-p).toNat : ℤ) : ℚ)) by
      push_cast
      ring]
    rw [show ((m : ℚ) * 1000 = ((1000 * m : ℤ) : ℚ)) by
      push_cast
      ring]
    exact Int.cast_lt.symm

/-- C6: for a decodable token whose claims carry the numeric expiry
`m * 10 ^ p` (seconds), `isTokenValid` at clock reading `nowMs`
milliseconds is true exactly when the expiry is strictly greater than the
current time in seconds; equality resolves to invalid. -/
theorem c6_expiry_strictly_greater (token : String) (nowMs : Int) (v : Json) (m p : Int)
    (hparse : parseJwt token = some v)
    (hexp : jLookup v "exp" = some (Json.jnum m p)) :
    (isTokenValid token nowMs = true ↔
      (nowMs : ℚ) / 1000 < (m : ℚ) * (10 : ℚ) ^ p) := by
  have h1 : isTokenValid token nowMs = expCheck v nowMs := by
    unfold isTokenValid
    rw [hparse]
  have h2 : expCheck v nowMs = decimalScaledGt m p nowMs := by
    unfold expCheck
    rw [hexp]
    rfl
  rw [h1, h2]
  exact decimalScaledGt_iff m p nowMs

/-- C6, witness: for a token with expiry 1 (second), the validity check
is false when the clock reads exactly the expiry instant and true one
second earlier. -/
theorem c6_witness :
    isTokenValid "a.eyJleHAiOjF9.c" 1000 = false ∧
    isTokenValid "a.eyJleHAiOjF9.c" 0 = true := by
  have hAt := c6_expiry_strictly_greater "a.eyJleHAiOjF9.c" 1000
    (Json.jobj [("exp", Json.jnum 1 0)]) 1 0 rfl rfl
  have hBefore := c6_expiry_strictly_greater "a.eyJleHAiOjF9.c" 0
    (Json.jobj [("exp", Json.jnum 1 0)]) 1 0 rfl rfl
  constructor
  · have hnot : ¬((1000 : ℚ) / 1000 < (1 : ℚ) * (10 : ℚ) ^ (0 : ℤ)) := by norm_num
    exact Bool.eq_false_iff.mpr (fun ht => hnot (hAt.mp ht))
  · exact hBefore.mpr (by norm_num)

/-- C7: every entry surviving the upcoming-checkout pipeline has
remaining time strictly positive and at most the window, and the
published list never exceeds the limit. -/
theorem c7_window_and_limit (dateOf : String → Int) (bookings : List Booking)
    (nowMs windowMs : Int) (limit : Nat) :
    (∀ e ∈ computeUpcomingCheckoutsFull dateOf bookings nowMs windowMs limit,
        0 < e.remainingMs ∧ e.remainingMs ≤ windowMs) ∧
    (computeUpcomingCheckouts dateOf bookings nowMs windowMs limit).length ≤ limit := by
  constructor
  · intro e he
    unfold computeUpcomingCheckoutsFull at he
    have h1 := List.mem_of_mem_take he
    have h2 := (List.perm_insertionSort
      (fun a b : UpcomingCheckoutFull => a.remainingMs ≤ b.remainingMs) _).mem_iff.mp h1
    have h3 := List.of_mem_filter h2
    simpa using h3
  · unfold computeUpcomingCheckouts
    rw [List.length_map]
    exact List.length_take_le _ _

/-- C7, witness: with one checked-in booking due in 5 seconds inside a
two-hour window, the surviving entry obeys the window bounds and the list
length obeys the limit. -/
theorem c7_witness :
    (0 < (mkCheckoutEntry sampleDateOf 0 baseBooking).remainingMs ∧
      (mkCheckoutEntry sampleDateOf 0 baseBooking).remainingMs ≤ 7200000) ∧
    (computeUpcomingCheckouts sampleDateOf [baseBooking] 0 7200000 3).length ≤ 3 :=
  ⟨(c7_window_and_limit sampleDateOf [baseBooking] 0 7200000 3).1
      (mkCheckoutEntry sampleDateOf 0 baseBooking) (by decide),
   (c7_window_and_limit sampleDateOf [baseBooking] 0 7200000 3).2⟩

/-- C8: the upcoming-checkout list is always sorted in ascending order of
remaining time, and for three checked-in bookings with remaining times
5000 ms, 120000 ms and 45000 ms inside the two-hour window the published
order is 5000, 45000, 120000 (booking codes B1, B3, B2). -/
theorem c8_sorted_ascending :
    (∀ (dateOf : String → Int) (bookings : List Booking) (nowMs windowMs : Int)
      (limit : Nat),
      List.Pairwise (fun a b => a.remainingMs ≤ b.remainingMs)
        (computeUpcomingCheckoutsFull dateOf bookings nowMs windowMs limit)) ∧
    (computeUpcomingCheckouts sampleDateOf
        [baseBooking,
         { baseBooking with bookingCode := "B2", scheduledCheckOut := "co2" },
         { baseBooking with bookingCode := "B3", scheduledCheckOut := "co3" }]
        0 7200000 3).map (fun e => e.bookingCode) = ["B1", "B3", "B2"] := by
  constructor
  · intro dateOf bookings nowMs windowMs limit
    unfold computeUpcomingCheckoutsFull
    refine List.Pairwise.sublist (List.take_sublist _ _) ?_
    exact List.sorted_insertionSort
      (fun a b : UpcomingCheckoutFull => a.remainingMs ≤ b.remainingMs) _
  · decide

end LodgeZen
